import Mathlib

/-!
Verification development for the security-dashboards-plugin authentication
dispatch framework and the RoleList administration panel.

The server-side dispatcher (src/server/auth/auth_handler_factory.ts) is
embedded as pure Lean functions over an abstract handle type: the five
strategy classes become the constructors of an inductive type, and a
constructed strategy instance becomes a record remembering which class was
instantiated and which handle landed in each constructor position.

The React RoleList panel (src/public/apps/configuration/panels/role-list.tsx)
is embedded as pure state-transition functions on the component state that
its event handlers mutate through hooks.

The session-cookie codec and the request interceptor are not part of the
two source files; they are modelled from the specification where a claim
needs them, and each such definition is marked in its doc comment.
-/

namespace SecurityDashboards

/-- The five concrete strategy classes that the dispatcher in
auth_handler_factory.ts can instantiate (one constructor per imported
class). -/
inductive IAuthHandlerConstructor where
  | BasicAuthentication
  | JwtAuthentication
  | OpenIdAuthentication
  | SamlAuthentication
  | ProxyAuthentication
deriving DecidableEq, Repr

namespace AuthType

/-- Modelled from the spec: the AuthType string constant for JWT. The
enumeration lives in src/server/common, which is not among the provided
source files; the spec fixes the identifier strings. -/
def JWT : String := "jwt"

/-- Modelled from the spec: the AuthType string constant for OpenID
Connect. -/
def OPEN_ID : String := "openid"

/-- Modelled from the spec: the AuthType string constant for SAML. -/
def SAML : String := "saml"

/-- Modelled from the spec: the AuthType string constant for proxy
authentication. -/
def PROXY : String := "proxy"

end AuthType

/-- A constructed strategy instance: which class was instantiated, and the
handle that was passed in each constructor position of
IAuthHandlerConstructor (config, sessionStorageFactory, router, esClient,
coreSetup, logger). Handles are drawn from an abstract type so that the
wiring, not the collaborator internals, is what the embedding tracks. -/
structure IAuthenticationType (A : Type) where
  ctor : IAuthHandlerConstructor
  config : A
  sessionStorageFactory : A
  router : A
  esClient : A
  coreSetup : A
  logger : A
deriving DecidableEq, Repr

/-- Embedding of createAuthentication: apply the selected class to the six
dependency arguments, in the positional order of its parameter list. -/
def createAuthentication {A : Type} (ctor : IAuthHandlerConstructor)
    (config sessionStorageFactory router esClient coreSetup logger : A) :
    IAuthenticationType A :=
  { ctor := ctor, config := config, sessionStorageFactory := sessionStorageFactory,
    router := router, esClient := esClient, coreSetup := coreSetup, logger := logger }

/-- Embedding of the switch statement of getAuthenticationHandler: resolve
the authType string to a strategy class.  The literal patterns are the
values of the AuthType constants; the empty string and the literal
basicauth both select BasicAuthentication, and the default arm throws. -/
def selectAuthHandlerType (authType : String) : Except String IAuthHandlerConstructor :=
  match authType with
  | "" => Except.ok IAuthHandlerConstructor.BasicAuthentication
  | "basicauth" => Except.ok IAuthHandlerConstructor.BasicAuthentication
  | "jwt" => Except.ok IAuthHandlerConstructor.JwtAuthentication
  | "openid" => Except.ok IAuthHandlerConstructor.OpenIdAuthentication
  | "saml" => Except.ok IAuthHandlerConstructor.SamlAuthentication
  | "proxy" => Except.ok IAuthHandlerConstructor.ProxyAuthentication
  | _ => Except.error ("Unsupported authentication type: " ++ authType)

/-- Embedding of getAuthenticationHandler.  Parameters appear in the order
of the source signature (authType, router, config, core, esClient,
securitySessionStorageFactory, logger).  After the switch resolves the
class, the source calls createAuthentication with the arguments
(config, securitySessionStorageFactory, router, esClient, esClient,
logger): the esClient handle is passed both in the esClient position and
in the coreSetup position, and the core parameter is not forwarded. -/
def getAuthenticationHandler {A : Type} (authType : String)
    (router config core esClient securitySessionStorageFactory logger : A) :
    Except String (IAuthenticationType A) :=
  (selectAuthHandlerType authType).map fun authHandlerType =>
    createAuthentication authHandlerType config securitySessionStorageFactory router
      esClient esClient logger

/-- The class a dispatch outcome instantiated, if it constructed anything. -/
def selectedVariant {A : Type} (r : Except String (IAuthenticationType A)) :
    Option IAuthHandlerConstructor :=
  match r with
  | Except.ok inst => some inst.ctor
  | Except.error _ => none

/-- The error message of a failed dispatch outcome, if it failed. -/
def dispatchError {A : Type} (r : Except String (IAuthenticationType A)) : Option String :=
  match r with
  | Except.ok _ => none
  | Except.error msg => some msg

/-- The strings recognized by the switch of getAuthenticationHandler. -/
def recognizedAuthTypes : List String :=
  ["", "basicauth", "jwt", "openid", "saml", "proxy"]

/-- C1: each of the five recognized AuthType identifiers makes
getAuthenticationHandler construct the matching strategy class, and every
identifier outside the recognized set (the five names plus the
empty-string alias) makes it fail with the configuration error, so no
instance is constructed. -/
theorem c1_dispatch_matches_identifier {A : Type}
    (router config core esClient ssf logger : A) :
    selectedVariant (getAuthenticationHandler "basicauth" router config core esClient ssf logger)
        = some IAuthHandlerConstructor.BasicAuthentication
    ∧ selectedVariant (getAuthenticationHandler "jwt" router config core esClient ssf logger)
        = some IAuthHandlerConstructor.JwtAuthentication
    ∧ selectedVariant (getAuthenticationHandler "openid" router config core esClient ssf logger)
        = some IAuthHandlerConstructor.OpenIdAuthentication
    ∧ selectedVariant (getAuthenticationHandler "saml" router config core esClient ssf logger)
        = some IAuthHandlerConstructor.SamlAuthentication
    ∧ selectedVariant (getAuthenticationHandler "proxy" router config core esClient ssf logger)
        = some IAuthHandlerConstructor.ProxyAuthentication
    ∧ ∀ s : String, s ∉ recognizedAuthTypes →
        getAuthenticationHandler s router config core esClient ssf logger
          = Except.error ("Unsupported authentication type: " ++ s) := by
  refine ⟨rfl, rfl, rfl, rfl, rfl, ?_⟩
  intro s hs
  simp only [recognizedAuthTypes, List.mem_cons, List.not_mem_nil, or_false, not_or] at hs
  obtain ⟨h0, h1, h2, h3, h4, h5⟩ := hs
  unfold getAuthenticationHandler selectAuthHandlerType
  split
  · exact absurd rfl h0
  · exact absurd rfl h1
  · exact absurd rfl h2
  · exact absurd rfl h3
  · exact absurd rfl h4
  · exact absurd rfl h5
  · rfl

/-- Witness for C1 at the concrete unsupported identifier ldap. -/
theorem c1_dispatch_matches_identifier_witness :
    getAuthenticationHandler "ldap" (10 : Nat) 20 30 40 50 60
      = Except.error "Unsupported authentication type: ldap" :=
  (c1_dispatch_matches_identifier (10 : Nat) 20 30 40 50 60).2.2.2.2.2 "ldap" (by decide)

/-- C2: the dispatcher does not forward its core parameter: for the
concrete dependency bundle (router 10, config 20, core 30, esClient 40,
sessionStorageFactory 50, logger 60) the constructed instance receives the
cluster-client handle 40 in the coreSetup position instead of the core
handle 30, contradicting the declared parameter list of
createAuthentication; every other dependency lands in its own position. -/
theorem c2_core_setup_not_forwarded :
    ∃ inst : IAuthenticationType Nat,
      getAuthenticationHandler "basicauth" 10 20 30 40 50 60 = Except.ok inst
      ∧ inst.coreSetup = 40
      ∧ inst.coreSetup ≠ 30
      ∧ inst.config = 20
      ∧ inst.sessionStorageFactory = 50
      ∧ inst.router = 10
      ∧ inst.esClient = 40
      ∧ inst.logger = 60 := by
  refine ⟨_, rfl, rfl, by decide, rfl, rfl, rfl, rfl, rfl⟩

/-- C3: the empty identifier is an alias for basicauth: both dispatches
yield the same outcome, it is a success, and the class constructed is
BasicAuthentication. -/
theorem c3_empty_string_is_basicauth {A : Type}
    (router config core esClient ssf logger : A) :
    getAuthenticationHandler "" router config core esClient ssf logger
        = getAuthenticationHandler "basicauth" router config core esClient ssf logger
    ∧ selectedVariant (getAuthenticationHandler "" router config core esClient ssf logger)
        = some IAuthHandlerConstructor.BasicAuthentication
    ∧ dispatchError (getAuthenticationHandler "" router config core esClient ssf logger)
        = none :=
  ⟨rfl, rfl, rfl⟩

/-- C5: dispatch is deterministic.  With the same identifier and the same
bundle the outcome is literally the same value, and across any two bundles
(even over different handle types) the resolved class and the error
message depend only on the identifier. -/
theorem c5_dispatch_deterministic {A B : Type} (authType : String)
    (router config core esClient ssf logger : A)
    (router2 config2 core2 esClient2 ssf2 logger2 : B) :
    getAuthenticationHandler authType router config core esClient ssf logger
        = getAuthenticationHandler authType router config core esClient ssf logger
    ∧ selectedVariant (getAuthenticationHandler authType router config core esClient ssf logger)
        = selectedVariant
            (getAuthenticationHandler authType router2 config2 core2 esClient2 ssf2 logger2)
    ∧ dispatchError (getAuthenticationHandler authType router config core esClient ssf logger)
        = dispatchError
            (getAuthenticationHandler authType router2 config2 core2 esClient2 ssf2 logger2) := by
  refine ⟨rfl, ?_, ?_⟩ <;>
    cases h : selectAuthHandlerType authType <;>
      simp [getAuthenticationHandler, selectedVariant, dispatchError, createAuthentication, h,
        Except.map]

/-- Modelled from the spec: the persisted session state
(SecuritySessionCookie), with subject identity, backend role names, the
authentication-type tag, issuance and expiry timestamps, and the
strategy-specific opaque payload.  The defining module
src/server/session/security_cookie.ts is not among the provided source
files. -/
structure SecuritySessionCookie where
  username : String
  backendRoles : List String
  authType : String
  issuedAt : Nat
  expiryTime : Nat
  payload : String
deriving DecidableEq, Repr

/-- Modelled from the spec: the read path of Session Storage.  On every
read the authentication-type tag embedded in the session is re-validated
against the currently active AuthType, and an expired or mismatching
session is treated as absent, never as an error. -/
def readSession (configuredAuthType : String) (now : Nat)
    (stored : Option SecuritySessionCookie) : Option SecuritySessionCookie :=
  match stored with
  | none => none
  | some session =>
      if session.authType = configuredAuthType ∧ now < session.expiryTime then some session
      else none

/-- C4: a session whose authentication-type tag was set to X is treated as
absent when read while the configured AuthType is Y ≠ X: the read gate
through which every operation obtains a session yields none for it. -/
theorem c4_cross_auth_type_session_rejected (x y : String) (hxy : x ≠ y)
    (session : SecuritySessionCookie) (htag : session.authType = x) (now : Nat) :
    readSession y now (some session) = none := by
  simp only [readSession, htag]
  simp [hxy]

/-- Witness for C4: a session tagged saml read under configured jwt. -/
theorem c4_cross_auth_type_session_rejected_witness :
    readSession "jwt" 5 (some ⟨"alice", ["admin"], "saml", 0, 100, ""⟩) = none :=
  c4_cross_auth_type_session_rejected "saml" "jwt" (by decide)
    ⟨"alice", ["admin"], "saml", 0, 100, ""⟩ rfl 5

/-! ### Session Cookie Codec (modelled from the spec)

The codec serializes the session object into a flat numeric stream
(strings as a length followed by their character codes), protects it with
a keyed tag computed over the stream, and on decode verifies the tag
before trusting any field and treats an expired session as absent. -/

/-- Modelled from the spec: serialize one string field as its length
followed by its character codes. -/
def encodeString (s : String) : List Nat :=
  s.length :: s.data.map Char.toNat

/-- Modelled from the spec: read back one string field, returning the
remainder of the stream. -/
def decodeString (stream : List Nat) : Option (String × List Nat) :=
  match stream with
  | [] => none
  | n :: rest =>
      if n ≤ rest.length then
        some (String.mk ((rest.take n).map Char.ofNat), rest.drop n)
      else none

/-- Modelled from the spec: serialize a list of strings as its length
followed by the serialized elements. -/
def encodeStringList (l : List String) : List Nat :=
  l.length :: (l.map encodeString).flatten

/-- Modelled from the spec: read back a known number of string fields. -/
def decodeStrings : Nat → List Nat → Option (List String × List Nat)
  | 0, rest => some ([], rest)
  | k + 1, rest =>
      match decodeString rest with
      | none => none
      | some (s, rest1) =>
          match decodeStrings k rest1 with
          | none => none
          | some (l, rest2) => some (s :: l, rest2)

/-- Modelled from the spec: read back a list of strings, its length coming
first in the stream. -/
def decodeStringList (stream : List Nat) : Option (List String × List Nat) :=
  match stream with
  | [] => none
  | n :: rest => decodeStrings n rest

/-- Modelled from the spec: read back one numeric field. -/
def decodeNat (stream : List Nat) : Option (Nat × List Nat) :=
  match stream with
  | [] => none
  | n :: rest => some (n, rest)

/-- Modelled from the spec: serialize the whole session object field by
field. -/
def serializeCookie (c : SecuritySessionCookie) : List Nat :=
  encodeString c.username ++ encodeStringList c.backendRoles ++ encodeString c.authType
    ++ c.issuedAt :: c.expiryTime :: encodeString c.payload

/-- Modelled from the spec: parse a serialized session object back,
failing on any malformed or trailing data. -/
def deserializeCookie (blob : List Nat) : Option SecuritySessionCookie :=
  match decodeString blob with
  | none => none
  | some (username, r1) =>
  match decodeStringList r1 with
  | none => none
  | some (backendRoles, r2) =>
  match decodeString r2 with
  | none => none
  | some (authType, r3) =>
  match decodeNat r3 with
  | none => none
  | some (issuedAt, r4) =>
  match decodeNat r4 with
  | none => none
  | some (expiryTime, r5) =>
  match decodeString r5 with
  | none => none
  | some (payload, r6) =>
  if r6 = [] then
    some { username := username, backendRoles := backendRoles, authType := authType,
           issuedAt := issuedAt, expiryTime := expiryTime, payload := payload }
  else none

/-- Modelled from the spec: the keyed integrity tag over a serialized
stream. -/
def signBlob (key : Nat) (blob : List Nat) : Nat :=
  blob.foldl (fun acc tok => acc * 31 + tok + 1) key

/-- Modelled from the spec: the cookie value as it travels over HTTP — the
serialized stream together with its integrity tag. -/
structure SignedCookie where
  value : List Nat
  mac : Nat
deriving DecidableEq, Repr

/-- Modelled from the spec: encoding a session into the cookie value. -/
def encodeSession (key : Nat) (c : SecuritySessionCookie) : SignedCookie :=
  { value := serializeCookie c, mac := signBlob key (serializeCookie c) }

/-- Modelled from the spec: decoding a cookie value — verify the tag
before trusting any field, then parse, then treat an expired session as
absent. -/
def decodeSession (key now : Nat) (cookie : SignedCookie) : Option SecuritySessionCookie :=
  if cookie.mac = signBlob key cookie.value then
    match deserializeCookie cookie.value with
    | none => none
    | some session => if now < session.expiryTime then some session else none
  else none

theorem decodeString_encodeString (s : String) (r : List Nat) :
    decodeString (encodeString s ++ r) = some (s, r) := by
  have hlen : (s.data.map Char.toNat).length = s.length := by
    rw [List.length_map]
    rfl
  have hle : s.length ≤ (s.data.map Char.toNat ++ r).length := by
    rw [List.length_append, hlen]
    exact Nat.le_add_right _ _
  have htake : (s.data.map Char.toNat ++ r).take s.length = s.data.map Char.toNat := by
    rw [← hlen]
    exact List.take_left _ _
  have hdrop : (s.data.map Char.toNat ++ r).drop s.length = r := by
    rw [← hlen]
    exact List.drop_left _ _
  have hchars : (s.data.map Char.toNat).map Char.ofNat = s.data := by
    induction s.data with
    | nil => rfl
    | cons a t ih => simp [ih, Char.ofNat_toNat]
  show (if s.length ≤ (s.data.map Char.toNat ++ r).length then
      some (String.mk (((s.data.map Char.toNat ++ r).take s.length).map Char.ofNat),
        (s.data.map Char.toNat ++ r).drop s.length)
    else none) = some (s, r)
  rw [if_pos hle, htake, hdrop, hchars]

theorem decodeString_encodeString_nil (s : String) :
    decodeString (encodeString s) = some (s, []) := by
  have h2 : encodeString s ++ [] = encodeString s := List.append_nil _
  rw [← h2]
  exact decodeString_encodeString s []

theorem decodeStrings_encode (l : List String) (r : List Nat) :
    decodeStrings l.length ((l.map encodeString).flatten ++ r) = some (l, r) := by
  induction l generalizing r with
  | nil => rfl
  | cons s t ih =>
      simp only [List.map_cons, List.flatten_cons, List.length_cons, List.append_assoc,
        decodeStrings, decodeString_encodeString, ih]

theorem decodeStringList_encodeStringList (l : List String) (r : List Nat) :
    decodeStringList (encodeStringList l ++ r) = some (l, r) := by
  show decodeStrings l.length ((l.map encodeString).flatten ++ r) = some (l, r)
  exact decodeStrings_encode l r

theorem deserializeCookie_serializeCookie (c : SecuritySessionCookie) :
    deserializeCookie (serializeCookie c) = some c := by
  obtain ⟨u, rs, ty, ia, et, p⟩ := c
  simp only [serializeCookie, deserializeCookie, List.append_assoc, List.cons_append,
    decodeString_encodeString, decodeStringList_encodeStringList, decodeNat,
    decodeString_encodeString_nil]
  simp

/-- C6: round trip — encoding a session and decoding the resulting
unmodified cookie while it is unexpired yields the original session, in
particular its identity and role set, unchanged. -/
theorem c6_encode_decode_roundtrip (key now : Nat) (c : SecuritySessionCookie)
    (hexp : now < c.expiryTime) :
    decodeSession key now (encodeSession key c) = some c := by
  simp [decodeSession, encodeSession, deserializeCookie_serializeCookie, hexp]

/-- Witness for C6 at a concrete session and key. -/
theorem c6_encode_decode_roundtrip_witness :
    decodeSession 7 5 (encodeSession 7 ⟨"alice", ["admin", "ops"], "basicauth", 1, 10, "tok"⟩)
      = some ⟨"alice", ["admin", "ops"], "basicauth", 1, 10, "tok"⟩ :=
  c6_encode_decode_roundtrip 7 5 ⟨"alice", ["admin", "ops"], "basicauth", 1, 10, "tok"⟩
    (by decide)

/-! ### Request Interceptor (modelled from the spec) -/

/-- Modelled from the spec: the explicit sum of authentication outcomes. -/
inductive AuthResult where
  | Authenticated (identity : String) (roles : List String)
  | Challenge (response : String)
  | Rejected (reason : String)
deriving DecidableEq, Repr

/-- Modelled from the spec: Session Storage as the list of session records
established so far. -/
structure SessionStore where
  records : List SecuritySessionCookie
deriving DecidableEq, Repr

/-- Modelled from the spec: the parts of an inbound request the
authentication core looks at — the session cookie, if any, and inline
Basic credentials, if any. -/
structure AuthRequest where
  sessionCookie : Option SecuritySessionCookie
  basicCredentials : Option (String × String)
deriving DecidableEq, Repr

/-- Modelled from the spec: the strategy path taken when no valid session
exists — challenge when no credentials are present, reject invalid
credentials, and on successful validation establish a new session record.
Credential validation against the backend cluster client is the function
argument v. -/
def strategyAuthenticate (v : String → String → Option (List String))
    (configuredAuthType : String) (now ttl : Nat) (store : SessionStore)
    (req : AuthRequest) : AuthResult × SessionStore :=
  match req.basicCredentials with
  | none => (AuthResult.Challenge "401 Unauthorized", store)
  | some (user, password) =>
      match v user password with
      | none => (AuthResult.Rejected "invalid credentials", store)
      | some roles =>
          let session : SecuritySessionCookie :=
            { username := user, backendRoles := roles, authType := configuredAuthType,
              issuedAt := now, expiryTime := now + ttl, payload := "" }
          (AuthResult.Authenticated user roles, { records := store.records ++ [session] })

/-- Modelled from the spec: the Request Interceptor algorithm — read the
session; if valid and unexpired, authenticate immediately from it without
touching storage; otherwise run the active strategy. -/
def authenticate (v : String → String → Option (List String))
    (configuredAuthType : String) (now ttl : Nat) (store : SessionStore)
    (req : AuthRequest) : AuthResult × SessionStore :=
  match readSession configuredAuthType now req.sessionCookie with
  | some session => (AuthResult.Authenticated session.username session.backendRoles, store)
  | none => strategyAuthenticate v configuredAuthType now ttl store req

/-- C7: authenticate is idempotent on an established session — with a
request carrying a valid session, the first run returns Authenticated with
the identity and roles of the session and leaves Session Storage
unchanged, and a second run over the resulting store returns the same
outcome. -/
theorem c7_authenticate_idempotent (v : String → String → Option (List String))
    (cfg : String) (now ttl : Nat) (store : SessionStore) (req : AuthRequest)
    (session : SecuritySessionCookie) (hreq : req.sessionCookie = some session)
    (htag : session.authType = cfg) (hexp : now < session.expiryTime) :
    (authenticate v cfg now ttl store req).1
        = AuthResult.Authenticated session.username session.backendRoles
    ∧ (authenticate v cfg now ttl store req).2 = store
    ∧ authenticate v cfg now ttl (authenticate v cfg now ttl store req).2 req
        = authenticate v cfg now ttl store req := by
  have hread : readSession cfg now req.sessionCookie = some session := by
    rw [hreq]
    simp [readSession, htag, hexp]
  refine ⟨?_, ?_, ?_⟩ <;> simp [authenticate, hread]

/-- Witness for C7 at a concrete valid session. -/
theorem c7_authenticate_idempotent_witness :
    (authenticate (fun _ _ => none) "basicauth" 5 30 ⟨[]⟩
        ⟨some ⟨"alice", ["admin"], "basicauth", 0, 100, ""⟩, none⟩).1
      = AuthResult.Authenticated "alice" ["admin"] :=
  (c7_authenticate_idempotent (fun _ _ => none) "basicauth" 5 30 ⟨[]⟩
      ⟨some ⟨"alice", ["admin"], "basicauth", 0, 100, ""⟩, none⟩
      ⟨"alice", ["admin"], "basicauth", 0, 100, ""⟩ rfl rfl (by decide)).1

/-! ### RoleList panel (src/public/apps/configuration/panels/role-list.tsx) -/

/-- One row of the role table, as produced by transformRoleData: the
fields the panel renders and the handlers read. -/
structure RoleListing where
  roleName : String
  reserved : Bool
  clusterPermissions : List String
  indexPermissions : List String
  internalUsers : List String
  backendRoles : List String
  tenantPermissions : List String
deriving DecidableEq, Repr

/-- The lodash difference of two arrays: the elements of the first that do
not occur in the second, in order. -/
def lodashDifference {A : Type} [DecidableEq A] (l values : List A) : List A :=
  l.filter fun x => decide (x ∉ values)

/-- The component state the delete handler touches: the displayed role
rows and the current selection. -/
structure RoleListState where
  roleData : List RoleListing
  selection : List RoleListing
deriving DecidableEq, Repr

/-- Embedding of handleDelete: on a successful delete request, replace the
role data with its lodash difference against the selection and clear the
selection; on a failed request only log, leaving both untouched. -/
def handleDelete (requestSucceeds : Bool) (st : RoleListState) : RoleListState :=
  if requestSucceeds then
    { roleData := lodashDifference st.roleData st.selection, selection := [] }
  else st

/-- C8: a successful delete leaves the displayed data equal to the
previous data with exactly the selected rows removed and empties the
selection; a failed delete request changes nothing. -/
theorem c8_handle_delete_removes_selection (st : RoleListState)
    (hsel : st.selection ≠ []) :
    (handleDelete true st).selection = []
    ∧ (∀ r : RoleListing,
        r ∈ (handleDelete true st).roleData ↔ r ∈ st.roleData ∧ r ∉ st.selection)
    ∧ handleDelete false st = st := by
  refine ⟨rfl, ?_, rfl⟩
  intro r
  simp [handleDelete, lodashDifference, List.mem_filter]

/-- Witness for C8 at a concrete one-row state whose single row is
selected. -/
theorem c8_handle_delete_removes_selection_witness :
    handleDelete false
        ⟨[⟨"admin", true, [], [], [], [], []⟩], [⟨"admin", true, [], [], [], [], []⟩]⟩
      = ⟨[⟨"admin", true, [], [], [], [], []⟩], [⟨"admin", true, [], [], [], [], []⟩]⟩ :=
  (c8_handle_delete_removes_selection
      ⟨[⟨"admin", true, [], [], [], [], []⟩], [⟨"admin", true, [], [], [], [], []⟩]⟩
      (by decide)).2.2

/-- Embedding of the disabled condition of the Edit action in
actionsMenuItems: disabled unless exactly one row is selected, and then
also when that row is reserved (the second operand is only evaluated when
the length is one, which the match mirrors). -/
def editDisabled (selection : List RoleListing) : Bool :=
  selection.length != 1
    || (match selection with
        | [] => false
        | r :: _ => r.reserved)

/-- Embedding of the disabled condition of the Delete action in
actionsMenuItems: disabled when nothing is selected or some selected row
is reserved. -/
def deleteDisabled (selection : List RoleListing) : Bool :=
  selection.length == 0 || selection.any fun e => e.reserved

/-- C9: Delete is disabled exactly when the selection is empty or holds a
reserved role; Edit is enabled exactly when the selection is one single
non-reserved role; hence a reserved role in the selection disables both. -/
theorem c9_reserved_roles_protected (selection : List RoleListing) :
    (deleteDisabled selection = true
        ↔ selection = [] ∨ ∃ r ∈ selection, r.reserved = true)
    ∧ (editDisabled selection = false
        ↔ ∃ r : RoleListing, selection = [r] ∧ r.reserved = false)
    ∧ ∀ r ∈ selection, r.reserved = true →
        deleteDisabled selection = true ∧ editDisabled selection = true := by
  refine ⟨?_, ?_, ?_⟩
  · simp [deleteDisabled, List.any_eq_true, List.length_eq_zero]
  · cases selection with
    | nil => simp [editDisabled]
    | cons r t =>
        cases t with
        | nil => simp [editDisabled]
        | cons r2 t2 => simp [editDisabled]
  · intro r hr hres
    constructor
    · simp only [deleteDisabled, Bool.or_eq_true, List.any_eq_true]
      exact Or.inr ⟨r, hr, hres⟩
    · cases selection with
      | nil => cases hr
      | cons r1 t =>
          cases t with
          | nil =>
              simp only [List.mem_singleton] at hr
              subst hr
              simp [editDisabled, hres]
          | cons r2 t2 => simp [editDisabled]

/-- Witness for C9 at a selection holding one reserved role. -/
theorem c9_reserved_roles_protected_witness :
    deleteDisabled [⟨"admin", true, [], [], [], [], []⟩] = true
    ∧ editDisabled [⟨"admin", true, [], [], [], [], []⟩] = true :=
  (c9_reserved_roles_protected [⟨"admin", true, [], [], [], [], []⟩]).2.2
    ⟨"admin", true, [], [], [], [], []⟩ (by simp) rfl

/-- The outcome of the initial data fetch: either the processed role data,
or a failure optionally carrying an HTTP response status. -/
inductive FetchResult where
  | ok (processedData : List RoleListing)
  | err (response : Option Nat)
deriving DecidableEq, Repr

/-- The component state the fetch effect touches. -/
structure RoleListFetchState where
  roleData : List RoleListing
  errorFlag : Bool
  accessErrorFlag : Bool
  loading : Bool
deriving DecidableEq, Repr

/-- The state the hooks initialize: empty data, both flags cleared, not
loading. -/
def initialFetchState : RoleListFetchState :=
  { roleData := [], errorFlag := false, accessErrorFlag := false, loading := false }

/-- Embedding of fetchData in RoleList: set loading, then on success store
the processed data and clear both flags; on failure set the access-error
flag only when the error carries a response with status 400 or 403, and
set the general error flag; finally clear loading. -/
def fetchData (result : FetchResult) (st : RoleListFetchState) : RoleListFetchState :=
  let st1 := { st with loading := true }
  match result with
  | FetchResult.ok processedData =>
      { st1 with
        roleData := processedData
        errorFlag := false
        accessErrorFlag := false
        loading := false }
  | FetchResult.err response =>
      let st2 :=
        match response with
        | some status =>
            if status == 400 || status == 403 then { st1 with accessErrorFlag := true }
            else st1
        | none => st1
      { st2 with errorFlag := true, loading := false }

/-- C10: from the initial state, a failed fetch always sets the general
error flag, and sets the access-error flag exactly when the failure
carries a response with status 400 or 403; a successful fetch leaves both
flags cleared. -/
theorem c10_fetch_error_flags (result : FetchResult) :
    (∀ resp : Option Nat, result = FetchResult.err resp →
        (fetchData result initialFetchState).errorFlag = true
        ∧ ((fetchData result initialFetchState).accessErrorFlag = true
            ↔ ∃ s, resp = some s ∧ (s = 400 ∨ s = 403)))
    ∧ ∀ d : List RoleListing, result = FetchResult.ok d →
        (fetchData result initialFetchState).errorFlag = false
        ∧ (fetchData result initialFetchState).accessErrorFlag = false := by
  constructor
  · intro resp hresp
    subst hresp
    refine ⟨rfl, ?_⟩
    cases resp with
    | none => simp [fetchData, initialFetchState]
    | some s =>
        by_cases h : s = 400 ∨ s = 403
        · rcases h with h | h <;> subst h <;> simp [fetchData, initialFetchState]
        · have h400 : ¬s = 400 := fun hc => h (Or.inl hc)
          have h403 : ¬s = 403 := fun hc => h (Or.inr hc)
          simp [fetchData, initialFetchState, h400, h403]
  · intro d hd
    subst hd
    exact ⟨rfl, rfl⟩

/-- Witness for C10 at a failed fetch carrying status 403. -/
theorem c10_fetch_error_flags_witness :
    (fetchData (FetchResult.err (some 403)) initialFetchState).errorFlag = true
    ∧ (fetchData (FetchResult.err (some 403)) initialFetchState).accessErrorFlag = true := by
  have h := (c10_fetch_error_flags (FetchResult.err (some 403))).1 (some 403) rfl
  exact ⟨h.1, h.2.mpr ⟨403, rfl, Or.inr rfl⟩⟩

end SecurityDashboards
